import Mathlib

/-!
Shallow embedding of the reconciliation core of the dynatrace-oneagent-operator
(`pkg/stub/handler.go`) and proofs about its specified behaviour.

External collaborators (control-plane client, credential store, version
authority) are modelled as explicit environments of pure answer functions;
Go slices that may be `nil` are modelled as `Option (List _)` (`none` = nil),
Go maps as association lists with insert-overwrite semantics, and Go panics
(out-of-range indexing, nil dereference) as `none` results.
-/

set_option autoImplicit false

namespace Stub

/-- Mirrors `corev1.SecretKeySelector` as used in handler.go:73-75. -/
structure SecretKeySelector where
  name : String
  key : String
deriving DecidableEq, Repr

/-- Mirrors `corev1.EnvVarSource` (only the `SecretKeyRef` member is used). -/
structure EnvVarSource where
  secretKeyRef : Option SecretKeySelector
deriving DecidableEq, Repr

/-- Mirrors `corev1.EnvVar`. -/
structure EnvVar where
  name : String
  value : String
  valueFrom : Option EnvVarSource
deriving DecidableEq, Repr

/-- Mirrors `corev1.Toleration` (opaque payload: the handler only copies and
compares tolerations, never inspects them). -/
structure Toleration where
  key : String
  operator : String
  effect : String
deriving DecidableEq, Repr

/-- Modelled from the spec: `v1alpha1.OneAgentInstance` (§3 InstanceRecord:
instance identity = pod name, installed version). The type itself lives
outside `pkg/stub`; its two fields are those read and written by handler.go. -/
structure OneAgentInstance where
  podName : String
  version : String
deriving DecidableEq, Repr

/-- Go `map[string]v1alpha1.OneAgentInstance`, as an association list where
`mapInsert` overwrites the previous binding for a key. -/
abbrev InstanceMap : Type := List (String × OneAgentInstance)

/-- Go map read `m[k]` (comma-ok form). -/
def mapGet (m : InstanceMap) (k : String) : Option OneAgentInstance :=
  (m.find? (fun e => e.1 = k)).map Prod.snd

/-- Go map write `m[k] = v`: the previous binding for `k`, if any, is gone. -/
def mapInsert (m : InstanceMap) (k : String) (v : OneAgentInstance) : InstanceMap :=
  m.filter (fun e => ¬ (e.1 = k)) ++ [(k, v)]

/-- Modelled from the spec: `v1alpha1.OneAgentSpec` (§3 FleetSpec). The type
lives outside `pkg/stub`; the fields are exactly those handler.go reads or
writes. Nilable Go slices/maps are `Option (List _)`. -/
structure OneAgentSpec where
  apiUrl : String
  skipCertCheck : Bool
  nodeSelector : Option (List (String × String))
  tolerations : Option (List Toleration)
  image : String
  tokens : String
  waitReadySeconds : Nat
  args : Option (List String)
  env : Option (List EnvVar)
deriving DecidableEq, Repr

/-- Modelled from the spec: `v1alpha1.OneAgentStatus` (§3 FleetStatus:
target version, instance map, last-update timestamp). -/
structure OneAgentStatus where
  version : String
  items : InstanceMap
  updatedTimestamp : Nat
deriving DecidableEq, Repr

/-- Modelled from the spec: the `v1alpha1.OneAgent` custom resource
(name + FleetSpec + FleetStatus; namespace/label routing is absorbed into
the environments answering queries). -/
structure OneAgent where
  name : String
  spec : OneAgentSpec
  status : OneAgentStatus
deriving DecidableEq, Repr

/-- A live agent pod, restricted to the fields handler.go reads:
`pod.Name`, `pod.Spec.NodeName`, `pod.Status.HostIP`. -/
structure Pod where
  name : String
  nodeName : String
  hostIP : String
deriving DecidableEq, Repr

/-- handler.go:25 — seconds between consecutive readiness queries. -/
def splayTimeSeconds : Nat := 10

/-- The exact EnvVar prepended at handler.go:70-76. -/
def installerTokenVar (tokens : String) : EnvVar :=
  { name := "ONEAGENT_INSTALLER_TOKEN"
    value := ""
    valueFrom := some { secretKeyRef := some { name := tokens, key := "paasToken" } } }

/-- handler.go:69-78. If the first environment entry's name is not
`ONEAGENT_INSTALLER_TOKEN`, prepend `installerTokenVar` (and report that the
status must be updated). On an empty list the Go code indexes `Env[0]` and
panics: modelled as `none`. Result: `some (newEnv, updateStatusSet)`. -/
def ensureCredentialReference (tokens : String) : List EnvVar → Option (List EnvVar × Bool)
  | [] => none
  | e :: rest =>
    if e.name ≠ "ONEAGENT_INSTALLER_TOKEN" then
      some (installerTokenVar tokens :: e :: rest, true)
    else
      some (e :: rest, false)

/-- A replacement pod as seen by the readiness poll; only the per-container
ready flags (`Status.ContainerStatuses[i].Ready`) are inspected. -/
structure ReplicaPod where
  containerReadiness : List Bool
deriving DecidableEq, Repr

/-- handler.go:203-211 — a pod is ready when all its containers are. -/
def getPodReadyState (p : ReplicaPod) : Bool :=
  p.containerReadiness.foldl (fun ready c => ready && c) true

/-- Answer of one `query.List` tick inside the readiness wait loop. -/
inductive PollAnswer where
  | qerr
  | found (pods : List ReplicaPod)
deriving Repr

/-- The error value held in `status` inside the wait loop of `deletePods`:
either the last query failed, or it returned more than one matching pod. -/
inductive PollError where
  | queryErr
  | tooMany (n : Nat)
deriving DecidableEq, Repr

/-- Observable outcome of one pod's readiness wait loop: the final `status`
value, how many poll ticks ran, and whether the loop exited through the
confirmed break (exactly one matching pod, all containers ready). -/
structure PollRun where
  status : Option PollError
  ticks : Nat
  confirmed : Bool
deriving DecidableEq, Repr

/-- handler.go:178-191, one pod's wait loop. Go iterates
`for splay := 0; splay < budget; splay += splayTimeSeconds`; we recurse on
the number of remaining iterations (`iters`) and carry `splay` only as the
tick index for the environment. Each iteration overwrites `status` with the
query outcome, so the incoming value matters only when no iteration runs. -/
def podWaitLoopAux (ans : Nat → PollAnswer) : Nat → Nat → Option PollError → PollRun
  | 0, _, status => ⟨status, 0, false⟩
  | iters + 1, splay, _ =>
    match ans splay with
    | .qerr =>
      let r := podWaitLoopAux ans iters (splay + splayTimeSeconds) (some .queryErr)
      ⟨r.status, r.ticks + 1, r.confirmed⟩
    | .found l =>
      match l with
      | [p] =>
        if getPodReadyState p then ⟨none, 1, true⟩
        else
          let r := podWaitLoopAux ans iters (splay + splayTimeSeconds) none
          ⟨r.status, r.ticks + 1, r.confirmed⟩
      | [] =>
        let r := podWaitLoopAux ans iters (splay + splayTimeSeconds) none
        ⟨r.status, r.ticks + 1, r.confirmed⟩
      | _ =>
        let r := podWaitLoopAux ans iters (splay + splayTimeSeconds) (some (.tooMany l.length))
        ⟨r.status, r.ticks + 1, r.confirmed⟩

/-- Number of iterations of the Go loop head `splay < budget` with step 10:
the splay values visited are 0, 10, …, i.e. ⌈budget/10⌉ iterations. -/
def waitLoopIters (budget : Nat) : Nat := (budget + splayTimeSeconds - 1) / splayTimeSeconds

/-- One pod's full readiness wait (`var status error` starts nil). -/
def podWaitLoop (ans : Nat → PollAnswer) (budget : Nat) : PollRun :=
  podWaitLoopAux ans (waitLoopIters budget) 0 none

/-- Environment answering the control-plane calls made by `deletePods`:
whether `action.Delete` succeeds for a pod, and the `query.List` answer for
a pod's replacement at a given splay value. -/
structure DeleteEnv where
  deleteOk : Pod → Bool
  poll : Pod → Nat → PollAnswer

/-- Errors surfaced by `deletePods`. -/
inductive DeleteError where
  | deleteFailed (podName : String)
  | pollFailed (podName : String) (e : PollError)
deriving DecidableEq, Repr

/-- Observable outcome of `deletePods`: pods actually deleted (in order),
total poll ticks executed, and the returned error if any. -/
structure DeleteRun where
  deleted : List Pod
  ticks : Nat
  err : Option DeleteError
deriving DecidableEq, Repr

/-- handler.go:162-199 — delete each candidate in order; after each deletion
run the readiness wait loop; a non-nil final `status` aborts the pass. -/
def deletePodsRun (env : DeleteEnv) (budget : Nat) : List Pod → DeleteRun
  | [] => ⟨[], 0, none⟩
  | pod :: rest =>
    if env.deleteOk pod then
      let r := podWaitLoop (env.poll pod) budget
      match r.status with
      | some e => ⟨[pod], r.ticks, some (.pollFailed pod.name e)⟩
      | none =>
        let rr := deletePodsRun env budget rest
        ⟨pod :: rr.deleted, r.ticks + rr.ticks, rr.err⟩
    else ⟨[], 0, some (.deleteFailed pod.name)⟩

/-- handler.go:432-435 — version carried into a fresh record when the
per-host lookup failed: the last known version for the node if a prior
record exists, otherwise the Go zero value `""`. -/
def fallbackVersion (oa : OneAgent) (pod : Pod) : String :=
  match mapGet oa.status.items pod.nodeName with
  | some i => i.version
  | none => ""

/-- Loop body of handler.go:424-445, with the accumulated doomed list and
instance map threaded left-to-right exactly as the Go `for` loop does.
`dtc host` is `dtc.GetVersionForIp(host)`: `some v` on success, `none` on
error. -/
def getPodsToRestartAux (dtc : String → Option String) (oa : OneAgent) :
    List Pod → List Pod → InstanceMap → List Pod × InstanceMap
  | [], doomedPods, instances => (doomedPods, instances)
  | pod :: rest, doomedPods, instances =>
    match dtc pod.hostIP with
    | none =>
      let item : OneAgentInstance := { podName := pod.name, version := fallbackVersion oa pod }
      getPodsToRestartAux dtc oa rest doomedPods (mapInsert instances pod.nodeName item)
    | some ver =>
      let item : OneAgentInstance := { podName := pod.name, version := ver }
      let doomedPods := if ver ≠ oa.status.version then doomedPods ++ [pod] else doomedPods
      getPodsToRestartAux dtc oa rest doomedPods (mapInsert instances pod.nodeName item)

/-- handler.go:420-448 — returns the pods to restart and the rebuilt
instance map. -/
def getPodsToRestart (pods : List Pod) (dtc : String → Option String) (oa : OneAgent) :
    List Pod × InstanceMap :=
  getPodsToRestartAux dtc oa pods [] []

/-- The retirement decision the code actually takes for one pod (used to
characterise `getPodsToRestart`): lookup succeeded and the resolved version
differs from the target held in status. -/
def doomedPred (dtc : String → Option String) (oa : OneAgent) (pod : Pod) : Bool :=
  match dtc pod.hostIP with
  | some ver => decide (ver ≠ oa.status.version)
  | none => false

/-- Mirrors `corev1.VolumeMount` (structural default, handler.go:376-379). -/
structure VolumeMount where
  name : String
  mountPath : String
deriving DecidableEq, Repr

/-- Mirrors `corev1.SecurityContext` (structural default, handler.go:380-382). -/
structure SecurityContext where
  privileged : Option Bool
deriving DecidableEq, Repr

/-- Mirrors `corev1.Probe` restricted to the members set at
handler.go:383-390 (exec command, delays). -/
structure Probe where
  execCommand : List String
  initialDelaySeconds : Nat
  periodSeconds : Nat
deriving DecidableEq, Repr

/-- Mirrors `corev1.Container` restricted to the members handler.go touches:
the controlled fields (image, env, args) plus the structural defaults. -/
structure Container where
  name : String
  image : String
  imagePullPolicy : String
  args : Option (List String)
  env : Option (List EnvVar)
  volumeMounts : List VolumeMount
  securityContext : Option SecurityContext
  readinessProbe : Option Probe
deriving DecidableEq, Repr

/-- Mirrors `corev1.Volume` restricted to the host-path default. -/
structure Volume where
  name : String
  hostPath : Option String
deriving DecidableEq, Repr

/-- Mirrors `corev1.PodSpec` restricted to the members handler.go touches. -/
structure DSPodSpec where
  nodeSelector : Option (List (String × String))
  tolerations : Option (List Toleration)
  containers : List Container
  volumes : List Volume
  hostNetwork : Bool
  hostPID : Bool
  hostIPC : Bool
  serviceAccountName : String
deriving DecidableEq, Repr

/-- Mirrors `corev1.PodTemplateSpec`. -/
structure PodTemplateSpec where
  labels : List (String × String)
  spec : DSPodSpec
deriving DecidableEq, Repr

/-- Mirrors `appsv1.DaemonSetSpec` restricted to the members handler.go
touches. -/
structure DaemonSetSpec where
  selector : Option (List (String × String))
  template : PodTemplateSpec
deriving DecidableEq, Repr

/-- handler.go:265-302 — extract the controlled fields of a DaemonSetSpec
into a OneAgentSpec, starting from a deep copy of `cr`. Each nilable source
field is copied only when non-nil; `Containers[0].Image` is read
unconditionally, so an empty container list panics (`none`). -/
def copyDaemonSetSpecToOneAgentSpec (ds : DaemonSetSpec) (cr : OneAgentSpec) :
    Option OneAgentSpec :=
  match ds.template.spec.containers with
  | [] => none
  | c :: _ =>
    let cr := match ds.template.spec.nodeSelector with
      | some m => { cr with nodeSelector := some m }
      | none => cr
    let cr := match ds.template.spec.tolerations with
      | some t => { cr with tolerations := some t }
      | none => cr
    let cr := { cr with image := c.image }
    let cr := match c.args with
      | some a => { cr with args := some a }
      | none => cr
    let cr := match c.env with
      | some e => { cr with env := some e }
      | none => cr
    some cr

/-- handler.go:253-261 — drift check: project the live DaemonSetSpec onto a
copy of the OneAgentSpec and compare by deep equality. `none` marks the
panic on an empty container list. -/
def hasSpecChanged (dsSpec : DaemonSetSpec) (cr : OneAgentSpec) : Option Bool :=
  (copyDaemonSetSpecToOneAgentSpec dsSpec cr).map (fun actualSpec => decide (¬ (cr = actualSpec)))

/-- Environment answering every external call made by `Handle`
(handler.go:35-145): credential store, DaemonSet upsert, Dynatrace client
construction, version authority, pod query, pod deletion with readiness
polling, status write, wall clock. -/
structure HandleEnv where
  paasToken : Option String
  apiToken : Option String
  upsertOk : Bool
  clientOk : Bool
  latestVersion : Option String
  podQuery : Option (List Pod)
  getVersionForIp : String → Option String
  deleteOk : Pod → Bool
  poll : Pod → Nat → PollAnswer
  statusUpdateOk : Bool
  now : Nat

/-- How one `Handle` invocation ends: `ok` = returns nil, `err` = returns a
non-nil error from the named step, `panicEnvIndex` = the out-of-range access
`Spec.Env[0]` at handler.go:69. -/
inductive HandleOutcome where
  | ok
  | err (step : String)
  | panicEnvIndex
deriving DecidableEq, Repr

/-- Observable outcome of one `Handle` invocation: how it ended, the final
in-memory custom resource, and the pods it deleted. -/
structure HandleResult where
  outcome : HandleOutcome
  oneagent : OneAgent
  deleted : List Pod
deriving Repr

/-- handler.go:107-141 — pod query, retirement decision, status-items
comparison, rolling restart, and the final conditional status write. -/
def handlePods (env : HandleEnv) (oa : OneAgent) (updateStatus : Bool) : HandleResult :=
  match env.podQuery with
  | none => ⟨.err "queryPods", oa, []⟩
  | some pods =>
    let pr := getPodsToRestart pods env.getVersionForIp oa
    let changed := decide (¬ (pr.2 = oa.status.items))
    let oa := if changed then { oa with status.items := pr.2 } else oa
    let updateStatus := updateStatus || changed
    let dr := deletePodsRun ⟨env.deleteOk, env.poll⟩ oa.spec.waitReadySeconds pr.1
    match dr.err with
    | some _ => ⟨.err "deletePods", oa, dr.deleted⟩
    | none =>
      if updateStatus then
        let oa := { oa with status.updatedTimestamp := env.now }
        if env.statusUpdateOk then ⟨.ok, oa, dr.deleted⟩
        else ⟨.err "updateStatus", oa, dr.deleted⟩
      else ⟨.ok, oa, dr.deleted⟩

/-- handler.go:94-105 — resolve the desired version. A failed query returns
nil immediately (the error is deliberately swallowed); a successful,
non-empty result differing from the stored version is adopted and marks the
status as changed. -/
def handleVersioned (env : HandleEnv) (oa : OneAgent) (updateStatus : Bool) : HandleResult :=
  match env.latestVersion with
  | none => ⟨.ok, oa, []⟩
  | some desired =>
    if desired ≠ "" ∧ oa.status.version ≠ desired then
      handlePods env { oa with status.version := desired } true
    else
      handlePods env oa updateStatus

/-- handler.go:35-145 — the whole reconciliation pass for a received
OneAgent object (the delete-event early return is outside this model). -/
def handle (env : HandleEnv) (oa0 : OneAgent) : HandleResult :=
  let p := if oa0.spec.tokens = "" then ({ oa0 with spec.tokens := oa0.name }, true)
           else (oa0, false)
  let oa := p.1
  let updateStatus := p.2
  match env.paasToken with
  | none => ⟨.err "getSecretKey paasToken", oa, []⟩
  | some _ =>
    match env.apiToken with
    | none => ⟨.err "getSecretKey apiToken", oa, []⟩
    | some _ =>
      match oa.spec.env with
      | none => ⟨.panicEnvIndex, oa, []⟩
      | some envList =>
        match ensureCredentialReference oa.spec.tokens envList with
        | none => ⟨.panicEnvIndex, oa, []⟩
        | some (envList2, injected) =>
          let oa := { oa with spec.env := some envList2 }
          let updateStatus := updateStatus || injected
          if env.upsertOk then
            if env.clientOk then handleVersioned env oa updateStatus
            else ⟨.err "dtclient", oa, []⟩
          else ⟨.err "upsertDaemonSet", oa, []⟩

/-! Concrete inputs used by counterexamples and witnesses. -/

def c1Pod : Pod := ⟨"dynatrace-oneagent-zzzzz", "node-z", "10.0.0.9"⟩

/-- Version authority that answers every per-host query successfully with
the empty string. -/
def c1Dtc : String → Option String := fun _ => some ""

def c1OA : OneAgent :=
  { name := "oneagent"
    spec := ⟨"https://env.live.dynatrace.com/api", false, none, none,
             "docker.io/dynatrace/oneagent", "oneagent", 300, none, none⟩
    status := ⟨"1.191.0", [], 0⟩ }

def c2Pod1 : Pod := ⟨"dynatrace-oneagent-aaaaa", "node-a", "10.0.0.1"⟩

def c2Pod2 : Pod := ⟨"dynatrace-oneagent-bbbbb", "node-b", "10.0.0.2"⟩

/-- Every deletion succeeds; every readiness query succeeds but finds no
matching replacement pod. -/
def c2Env : DeleteEnv := ⟨fun _ => true, fun _ _ => .found []⟩

def c3Pod1 : Pod := ⟨"dynatrace-oneagent-ccccc", "node-c", "10.0.0.3"⟩

def c3Pod2 : Pod := ⟨"dynatrace-oneagent-ddddd", "node-d", "10.0.0.4"⟩

/-- Every deletion succeeds; every readiness query finds exactly one
replacement whose single container is not ready. -/
def c3Env : DeleteEnv := ⟨fun _ => true, fun _ _ => .found [⟨[false]⟩]⟩

def c4Pod : Pod := ⟨"dynatrace-oneagent-new", "node-4", "10.1.1.4"⟩

/-- Version authority whose per-host query always fails. -/
def c4Dtc : String → Option String := fun _ => none

def c4OA : OneAgent :=
  { name := "oneagent"
    spec := ⟨"https://env.live.dynatrace.com/api", false, none, none,
             "docker.io/dynatrace/oneagent", "oneagent", 300, none, none⟩
    status := ⟨"1.200.0", [("node-4", ⟨"dynatrace-oneagent-old", "1.150.0"⟩)], 5⟩ }

/-- The container the operator itself deploys (handler.go:373-392), with the
image of `c5Cr` — used to build a live DaemonSetSpec whose controlled
collection fields are nil. -/
def c5Container : Container :=
  { name := "dynatrace-oneagent"
    image := "docker.io/dynatrace/oneagent:latest"
    imagePullPolicy := "Always"
    args := none
    env := none
    volumeMounts := [⟨"host-root", "/mnt/root"⟩]
    securityContext := some ⟨some true⟩
    readinessProbe := some ⟨["pgrep", "-f", "oneagentwatchdog"], 30, 30⟩ }

/-- Live DaemonSetSpec whose node selector is nil. -/
def c5Ds : DaemonSetSpec :=
  { selector := none
    template :=
      { labels := []
        spec :=
          { nodeSelector := none
            tolerations := none
            containers := [c5Container]
            volumes := [⟨"host-root", some "/"⟩]
            hostNetwork := true
            hostPID := true
            hostIPC := true
            serviceAccountName := "dynatrace-oneagent" } } }

/-- Declarative input that demands a node selector the live spec lacks. -/
def c5Cr : OneAgentSpec :=
  ⟨"https://env.live.dynatrace.com/api", false, some [("kubernetes.io/os", "linux")], none,
   "docker.io/dynatrace/oneagent:latest", "oneagent", 300, none, none⟩

def c5wContainer : Container :=
  { name := "dynatrace-oneagent"
    image := "docker.io/dynatrace/oneagent:latest"
    imagePullPolicy := "Always"
    args := none
    env := none
    volumeMounts := [⟨"host-root", "/mnt/root"⟩]
    securityContext := some ⟨some true⟩
    readinessProbe := some ⟨["pgrep", "-f", "oneagentwatchdog"], 30, 30⟩ }

def c5wDs : DaemonSetSpec :=
  { selector := none
    template :=
      { labels := []
        spec :=
          { nodeSelector := none
            tolerations := none
            containers := [c5wContainer]
            volumes := [⟨"host-root", some "/"⟩]
            hostNetwork := true
            hostPID := true
            hostIPC := true
            serviceAccountName := "dynatrace-oneagent" } } }

/-- Declarative input whose image differs from the live container's. -/
def c5wCr : OneAgentSpec :=
  ⟨"https://env.live.dynatrace.com/api", false, none, none,
   "docker.io/dynatrace/oneagent:beta", "oneagent", 300, none, none⟩

def c6OA : OneAgent :=
  { name := "oneagent"
    spec := ⟨"https://env.live.dynatrace.com/api", false, none, none,
             "docker.io/dynatrace/oneagent", "oneagent", 300, none,
             some [⟨"SOME_SETTING", "x", none⟩]⟩
    status := ⟨"1.180.0", [], 0⟩ }

/-- Environment in which every step succeeds except the query for the
globally recommended version. -/
def c6Env : HandleEnv :=
  { paasToken := some "paas-token-value"
    apiToken := some "api-token-value"
    upsertOk := true
    clientOk := true
    latestVersion := none
    podQuery := some []
    getVersionForIp := fun _ => none
    deleteOk := fun _ => true
    poll := fun _ _ => .qerr
    statusUpdateOk := true
    now := 7 }

def c10OA : OneAgent :=
  { name := "oneagent"
    spec := ⟨"https://env.live.dynatrace.com/api", false, none, none,
             "docker.io/dynatrace/oneagent", "oneagent", 300, none,
             some [⟨"SOME_SETTING", "x", none⟩]⟩
    status := ⟨"1.180.0", [], 0⟩ }

/-- Environment in which the version query succeeds with the empty string. -/
def c10Env : HandleEnv :=
  { paasToken := some "paas-token-value"
    apiToken := some "api-token-value"
    upsertOk := true
    clientOk := true
    latestVersion := some ""
    podQuery := some []
    getVersionForIp := fun _ => none
    deleteOk := fun _ => true
    poll := fun _ _ => .qerr
    statusUpdateOk := true
    now := 7 }

/-! Helper lemmas about the instance map and the inventory loop. -/

theorem mapGet_nil (k : String) : mapGet [] k = none := rfl

theorem mapGet_cons (e : String × OneAgentInstance) (m : InstanceMap) (k : String) :
    mapGet (e :: m) k = if e.1 = k then some e.2 else mapGet m k := by
  by_cases h : e.1 = k <;> simp [mapGet, List.find?_cons, h]

theorem mapGet_insert (m : InstanceMap) (k : String) (v : OneAgentInstance) (k' : String) :
    mapGet (mapInsert m k v) k' = if k' = k then some v else mapGet m k' := by
  induction m with
  | nil =>
    by_cases h : k' = k
    · subst h
      simp [mapGet, mapInsert, List.find?]
    · have h2 : ¬ k = k' := fun hh => h hh.symm
      simp [mapGet, mapInsert, List.find?, h, h2]
  | cons e m ih =>
    by_cases he : e.1 = k
    · have hdrop : mapInsert (e :: m) k v = mapInsert m k v := by
        simp [mapInsert, List.filter_cons, he]
      rw [hdrop, ih, mapGet_cons]
      by_cases h : k' = k
      · simp [h]
      · have : ¬ e.1 = k' := by
          intro hk
          exact h (by rw [← hk, he])
        simp [h, this]
    · have hkeep : mapInsert (e :: m) k v = e :: mapInsert m k v := by
        simp [mapInsert, List.filter_cons, he]
      rw [hkeep, mapGet_cons, mapGet_cons, ih]
      by_cases h2 : e.1 = k'
      · have : ¬ k' = k := by
          intro hk
          exact he (by rw [h2, hk])
        simp [h2, this]
      · simp [h2]

theorem getPodsToRestartAux_fst (dtc : String → Option String) (oa : OneAgent) :
    ∀ (pods : List Pod) (doomedPods : List Pod) (instances : InstanceMap),
      (getPodsToRestartAux dtc oa pods doomedPods instances).1 =
        doomedPods ++ pods.filter (doomedPred dtc oa) := by
  intro pods
  induction pods with
  | nil => intro doomedPods instances; simp [getPodsToRestartAux]
  | cons pod rest ih =>
    intro doomedPods instances
    cases hd : dtc pod.hostIP with
    | none => simp [getPodsToRestartAux, hd, ih, doomedPred]
    | some ver =>
      by_cases hv : ver = oa.status.version
      · simp [getPodsToRestartAux, hd, ih, doomedPred, hv]
      · simp [getPodsToRestartAux, hd, ih, doomedPred, hv]

theorem getPodsToRestartAux_mapGet_isSome (dtc : String → Option String) (oa : OneAgent) :
    ∀ (pods : List Pod) (doomedPods : List Pod) (instances : InstanceMap) (k : String),
      (mapGet (getPodsToRestartAux dtc oa pods doomedPods instances).2 k).isSome =
        true ↔ (∃ p ∈ pods, p.nodeName = k) ∨ (mapGet instances k).isSome = true := by
  intro pods
  induction pods with
  | nil => intro doomedPods instances k; simp [getPodsToRestartAux]
  | cons pod rest ih =>
    intro doomedPods instances k
    have step :
        ∀ item : OneAgentInstance,
          ((mapGet (mapInsert instances pod.nodeName item) k).isSome = true) ↔
            (k = pod.nodeName ∨ (mapGet instances k).isSome = true) := by
      intro item
      rw [mapGet_insert]
      by_cases h : k = pod.nodeName <;> simp [h]
    cases hd : dtc pod.hostIP with
    | none =>
      rw [getPodsToRestartAux]
      simp only [hd]
      rw [ih, step]
      constructor
      · rintro (⟨p, hp, hpk⟩ | hk | hsome)
        · exact Or.inl ⟨p, List.mem_cons_of_mem _ hp, hpk⟩
        · exact Or.inl ⟨pod, List.mem_cons_self _ _, hk.symm⟩
        · exact Or.inr hsome
      · rintro (⟨p, hp, hpk⟩ | hsome)
        · rcases List.mem_cons.mp hp with hpp | hpp
          · subst hpp
            exact Or.inr (Or.inl hpk.symm)
          · exact Or.inl ⟨p, hpp, hpk⟩
        · exact Or.inr (Or.inr hsome)
    | some ver =>
      rw [getPodsToRestartAux]
      simp only [hd]
      rw [ih, step]
      constructor
      · rintro (⟨p, hp, hpk⟩ | hk | hsome)
        · exact Or.inl ⟨p, List.mem_cons_of_mem _ hp, hpk⟩
        · exact Or.inl ⟨pod, List.mem_cons_self _ _, hk.symm⟩
        · exact Or.inr hsome
      · rintro (⟨p, hp, hpk⟩ | hsome)
        · rcases List.mem_cons.mp hp with hpp | hpp
          · subst hpp
            exact Or.inr (Or.inl hpk.symm)
          · exact Or.inl ⟨p, hpp, hpk⟩
        · exact Or.inr (Or.inr hsome)

theorem getPodsToRestartAux_mapGet_frozen (dtc : String → Option String) (oa : OneAgent) :
    ∀ (pods : List Pod) (doomedPods : List Pod) (instances : InstanceMap) (k : String),
      (∀ q ∈ pods, ¬ q.nodeName = k) →
      mapGet (getPodsToRestartAux dtc oa pods doomedPods instances).2 k = mapGet instances k := by
  intro pods
  induction pods with
  | nil => intro doomedPods instances k _; simp [getPodsToRestartAux]
  | cons pod rest ih =>
    intro doomedPods instances k hk
    have hpod : ¬ k = pod.nodeName := fun h => hk pod (by simp) h.symm
    have hrest : ∀ q ∈ rest, ¬ q.nodeName = k := fun q hq => hk q (by simp [hq])
    cases hd : dtc pod.hostIP with
    | none =>
      rw [getPodsToRestartAux]
      simp only [hd]
      rw [ih _ _ _ hrest, mapGet_insert]
      simp [hpod]
    | some ver =>
      rw [getPodsToRestartAux]
      simp only [hd]
      rw [ih _ _ _ hrest, mapGet_insert]
      simp [hpod]

theorem getPodsToRestartAux_mapGet_last (dtc : String → Option String) (oa : OneAgent) :
    ∀ (pods : List Pod) (doomedPods : List Pod) (instances : InstanceMap) (p : Pod),
      p ∈ pods → dtc p.hostIP = none →
      (∀ q ∈ pods, q.nodeName = p.nodeName → q = p) →
      mapGet (getPodsToRestartAux dtc oa pods doomedPods instances).2 p.nodeName =
        some { podName := p.name, version := fallbackVersion oa p } := by
  intro pods
  induction pods with
  | nil => intro doomedPods instances p hmem; exact absurd hmem (by simp)
  | cons pod rest ih =>
    intro doomedPods instances p hmem hfail huniq
    by_cases hrest : p ∈ rest
    · have huniq' : ∀ q ∈ rest, q.nodeName = p.nodeName → q = p :=
        fun q hq => huniq q (by simp [hq])
      cases hd : dtc pod.hostIP with
      | none =>
        rw [getPodsToRestartAux]
        simp only [hd]
        exact ih _ _ p hrest hfail huniq'
      | some ver =>
        rw [getPodsToRestartAux]
        simp only [hd]
        exact ih _ _ p hrest hfail huniq'
    · have hpp : pod = p := by
        rcases List.mem_cons.mp hmem with h | h
        · exact h.symm
        · exact absurd h hrest
      subst hpp
      have hnone : ∀ q ∈ rest, ¬ q.nodeName = pod.nodeName := by
        intro q hq hqn
        exact hrest (by rw [← huniq q (by simp [hq]) hqn] at hrest ⊢; exact hq)
      rw [getPodsToRestartAux]
      simp only [hfail]
      rw [getPodsToRestartAux_mapGet_frozen dtc oa rest _ _ _ hnone, mapGet_insert]
      simp

/-! Claim theorems. -/

/-- C1 (amended): a live instance is added to the retirement candidate list
if and only if its installed-version lookup succeeded and the resolved
version differs from the target version in status — the code performs no
non-emptiness check on the resolved version. -/
theorem C1_retirement_gating (pods : List Pod) (dtc : String → Option String) (oa : OneAgent) :
    (getPodsToRestart pods dtc oa).1 = pods.filter (doomedPred dtc oa) := by
  rw [getPodsToRestart, getPodsToRestartAux_fst]
  rfl

/-- C8: after a pass rebuilds the instance map, its key set is exactly the
set of node names of the live pods observed in that pass — stale keys from
the previous status cannot survive, the map is rebuilt from `make(...)`. -/
theorem C8_instance_map_keys (pods : List Pod) (dtc : String → Option String) (oa : OneAgent)
    (k : String) :
    (mapGet (getPodsToRestart pods dtc oa).2 k).isSome = true ↔ ∃ p ∈ pods, p.nodeName = k := by
  rw [getPodsToRestart]
  rw [getPodsToRestartAux_mapGet_isSome]
  simp [mapGet_nil]

/-- C4: when the installed-version lookup for a pod fails, the fresh record
keeps the previously persisted version for that pod's node if one exists and
is the empty string otherwise (`fallbackVersion` is exactly that choice). -/
theorem C4_version_fallback (pods : List Pod) (dtc : String → Option String) (oa : OneAgent)
    (p : Pod) (hmem : p ∈ pods) (hfail : dtc p.hostIP = none)
    (huniq : ∀ q ∈ pods, q.nodeName = p.nodeName → q = p) :
    mapGet (getPodsToRestart pods dtc oa).2 p.nodeName =
      some { podName := p.name, version := fallbackVersion oa p } := by
  rw [getPodsToRestart]
  exact getPodsToRestartAux_mapGet_last dtc oa pods [] [] p hmem hfail huniq

/-- C4 witness: one live pod on node-4, lookup fails, a prior record for
node-4 holds version 1.150.0 — the fresh record carries 1.150.0 forward. -/
theorem C4_version_fallback_witness :
    mapGet (getPodsToRestart [c4Pod] c4Dtc c4OA).2 c4Pod.nodeName =
      some { podName := "dynatrace-oneagent-new", version := "1.150.0" } := by
  have h := C4_version_fallback [c4Pod] c4Dtc c4OA c4Pod (by simp) rfl (by simp)
  exact h

/-- C1 counterexample: the version authority resolves the pod's installed
version successfully as the empty string, the target version is 1.191.0 —
the code retires the pod, so the claimed "and the resolved version is
non-empty" conjunct does not gate retirement. -/
theorem C1_counterexample :
    ¬ ((c1Pod ∈ (getPodsToRestart [c1Pod] c1Dtc c1OA).1) ↔
        ((c1Dtc c1Pod.hostIP).isSome = true ∧
          ∀ v, c1Dtc c1Pod.hostIP = some v → v ≠ "" ∧ v ≠ c1OA.status.version)) := by
  intro h
  have hmem : c1Pod ∈ (getPodsToRestart [c1Pod] c1Dtc c1OA).1 := by decide
  have hempty := ((h.mp hmem).2 "" rfl).1
  exact hempty rfl

/-- C2: with a poll budget of 10 seconds (one tick) and every readiness
query succeeding with an empty result, the wait loop of neither candidate
ever confirms a replacement, yet `deletePods` deletes both candidates and
returns nil — contradicting its own contract ("Returns an error … timeout
on waiting for ready state") and the claim. -/
theorem C2_timeout_error_swallowed :
    deletePodsRun c2Env 10 [c2Pod1, c2Pod2] = ⟨[c2Pod1, c2Pod2], 2, none⟩ ∧
    (podWaitLoop (c2Env.poll c2Pod1) 10).confirmed = false ∧
    (podWaitLoop (c2Env.poll c2Pod2) 10).confirmed = false :=
  ⟨rfl, rfl, rfl⟩

/-- C3: with budget 20 (two ticks per candidate) and every query finding a
single not-ready replacement, candidate 1 never reaches the confirmed
state, yet the deletion of candidate 2 is still issued (both pods appear in
the deletion trace) — refuting the claimed Confirmed-gating; the run also
shows the tick bound (4 = 2·⌈20/10⌉) and deletion bound (2) being met. -/
theorem C3_premature_next_delete :
    deletePodsRun c3Env 20 [c3Pod1, c3Pod2] = ⟨[c3Pod1, c3Pod2], 4, none⟩ ∧
    (podWaitLoop (c3Env.poll c3Pod1) 20).confirmed = false :=
  ⟨rfl, rfl⟩

/-- C7: on a non-empty environment list the credential injection is
idempotent — a second application returns the same list and injects
nothing — and a list whose first entry is already named
`ONEAGENT_INSTALLER_TOKEN` is left unchanged. -/
theorem C7_credential_injection_idempotent (tokens : String) (env : List EnvVar)
    (h : env ≠ []) :
    ∃ out changed, ensureCredentialReference tokens env = some (out, changed) ∧
      ensureCredentialReference tokens out = some (out, false) ∧
      (∀ e rest, env = e :: rest → e.name = "ONEAGENT_INSTALLER_TOKEN" →
        out = env ∧ changed = false) := by
  cases env with
  | nil => exact absurd rfl h
  | cons e rest =>
    by_cases hn : e.name = "ONEAGENT_INSTALLER_TOKEN"
    · refine ⟨e :: rest, false, ?_, ?_, ?_⟩
      · simp [ensureCredentialReference, hn]
      · simp [ensureCredentialReference, hn]
      · intro e' rest' heq _
        exact ⟨heq.symm ▸ rfl, rfl⟩
    · refine ⟨installerTokenVar tokens :: e :: rest, true, ?_, ?_, ?_⟩
      · simp [ensureCredentialReference, hn]
      · simp [ensureCredentialReference, installerTokenVar]
      · intro e' rest' heq hname
        cases heq
        exact absurd hname hn

/-- C7 witness: a concrete single-entry environment list. -/
theorem C7_credential_injection_idempotent_witness :
    ∃ out changed,
      ensureCredentialReference "oneagent" [⟨"SOME_SETTING", "x", none⟩] = some (out, changed) ∧
      ensureCredentialReference "oneagent" out = some (out, false) ∧
      (∀ e rest, [(⟨"SOME_SETTING", "x", none⟩ : EnvVar)] = e :: rest →
        e.name = "ONEAGENT_INSTALLER_TOKEN" → out = [⟨"SOME_SETTING", "x", none⟩] ∧
        changed = false) :=
  C7_credential_injection_idempotent "oneagent" [⟨"SOME_SETTING", "x", none⟩] (by simp)

/-- C9: the credential-injection check reads `Spec.Env[0]`; on an empty
environment list this is an out-of-range access (modelled as `none`), and
for every non-empty list the operation succeeds — it is total exactly under
the non-emptiness precondition. -/
theorem C9_empty_env_out_of_bounds (tokens : String) :
    ensureCredentialReference tokens [] = none ∧
    ∀ env : List EnvVar, env ≠ [] → (ensureCredentialReference tokens env).isSome = true := by
  refine ⟨rfl, ?_⟩
  intro env h
  cases env with
  | nil => exact absurd rfl h
  | cons e rest =>
    by_cases hn : e.name = "ONEAGENT_INSTALLER_TOKEN" <;>
      simp [ensureCredentialReference, hn]

/-- C9 witness: concrete evaluations at the empty list and a one-entry list. -/
theorem C9_empty_env_out_of_bounds_witness :
    ensureCredentialReference "oneagent" [] = none ∧
    (ensureCredentialReference "oneagent" [⟨"FOO", "bar", none⟩]).isSome = true :=
  ⟨(C9_empty_env_out_of_bounds "oneagent").1,
    (C9_empty_env_out_of_bounds "oneagent").2 [⟨"FOO", "bar", none⟩] (by simp)⟩

/-- C5 (amended): for a live spec with at least one container, drift is
reported exactly when the image differs, or one of node selector,
tolerations, args, env is non-nil on the live spec and differs from the
input's value; a nil live collection field is skipped by the projection, so
edits that leave it nil are invisible, and edits confined to structural
default fields (which the projection never reads) are invisible as well. -/
theorem C5_drift_characterization (ds : DaemonSetSpec) (cr : OneAgentSpec)
    (c : Container) (cs : List Container)
    (h : ds.template.spec.containers = c :: cs) :
    hasSpecChanged ds cr = some true ↔
      (∃ m, ds.template.spec.nodeSelector = some m ∧ ¬ cr.nodeSelector = some m)
      ∨ (∃ t, ds.template.spec.tolerations = some t ∧ ¬ cr.tolerations = some t)
      ∨ ¬ cr.image = c.image
      ∨ (∃ a, c.args = some a ∧ ¬ cr.args = some a)
      ∨ (∃ e, c.env = some e ∧ ¬ cr.env = some e) := by
  obtain ⟨a1, a2, a3, a4, a5, a6, a7, a8, a9⟩ := cr
  rw [hasSpecChanged, copyDaemonSetSpecToOneAgentSpec, h]
  rcases hns : ds.template.spec.nodeSelector with _ | m <;>
    rcases htol : ds.template.spec.tolerations with _ | t <;>
      rcases hargs : c.args with _ | a <;>
        rcases henv : c.env with _ | e <;>
          simp [hns, htol, hargs, henv, OneAgentSpec.mk.injEq]

/-- C5 witness: an image edit on the declarative input is detected. -/
theorem C5_drift_characterization_witness :
    hasSpecChanged c5wDs c5wCr = some true :=
  (C5_drift_characterization c5wDs c5wCr c5wContainer [] rfl).mpr
    (Or.inr (Or.inr (Or.inl (by decide))))

/-- C5 counterexample: the live spec's node selector (a controlled field) is
nil while the input demands one — a difference in a controlled field — yet
the drift check returns false, refuting "any edit to the controlled fields
… makes the drift check return true". -/
theorem C5_counterexample :
    ¬ (¬ (c5Ds.template.spec.nodeSelector = c5Cr.nodeSelector) →
        hasSpecChanged c5Ds c5Cr = some true) :=
  fun h => absurd (h (by decide)) (by decide)

/-- The pod-handling tail of a pass never rewrites the target version. -/
theorem handlePods_version (env : HandleEnv) (oa : OneAgent) (u : Bool) :
    (handlePods env oa u).oneagent.status.version = oa.status.version := by
  rw [handlePods]
  rcases env.podQuery with _ | pods
  · rfl
  · dsimp only
    repeat' split
    all_goals simp

/-- The version step either leaves the stored version unchanged or adopts a
successful, non-empty, differing desired version. -/
theorem handleVersioned_cases (env : HandleEnv) (oa : OneAgent) (u : Bool) :
    (handleVersioned env oa u).oneagent.status.version = oa.status.version ∨
    ∃ d, env.latestVersion = some d ∧ d ≠ "" ∧ oa.status.version ≠ d ∧
      (handleVersioned env oa u).oneagent.status.version = d := by
  rw [handleVersioned]
  rcases env.latestVersion with _ | d
  · exact Or.inl rfl
  · dsimp only
    by_cases hc : d ≠ "" ∧ oa.status.version ≠ d
    · rw [if_pos hc]
      refine Or.inr ⟨d, rfl, hc.1, hc.2, ?_⟩
      rw [handlePods_version]
    · rw [if_neg hc]
      exact Or.inl (handlePods_version env oa u)

/-- Across one whole pass, the stored target version either survives
unchanged or is replaced by a successful, non-empty, differing desired
version — nothing else ever writes it. -/
theorem handle_version_cases (env : HandleEnv) (oa : OneAgent) :
    (handle env oa).oneagent.status.version = oa.status.version ∨
    ∃ d, env.latestVersion = some d ∧ d ≠ "" ∧ oa.status.version ≠ d ∧
      (handle env oa).oneagent.status.version = d := by
  have hv : ∀ (oa' : OneAgent) (u : Bool), oa'.status = oa.status →
      (handleVersioned env oa' u).oneagent.status.version = oa.status.version ∨
      ∃ d, env.latestVersion = some d ∧ d ≠ "" ∧ oa.status.version ≠ d ∧
        (handleVersioned env oa' u).oneagent.status.version = d := by
    intro oa' u h
    rcases handleVersioned_cases env oa' u with h1 | ⟨d, h1, h2, h3, h4⟩
    · exact Or.inl (by rw [h1, h])
    · exact Or.inr ⟨d, h1, h2, by rw [← h]; exact h3, h4⟩
  rw [handle]
  dsimp only
  repeat' split
  all_goals first
    | exact Or.inl rfl
    | exact hv _ _ rfl

/-- C6: when the pass reaches the version query (secrets found, upsert and
client construction succeed, environment list non-empty) and that query
fails, `Handle` returns nil, the stored target version keeps its previous
value, and no instance is deleted in that pass. -/
theorem C6_swallowed_version_failure (env : HandleEnv) (oa : OneAgent)
    (hpaas : env.paasToken.isSome = true) (hapi : env.apiToken.isSome = true)
    (henv : ∃ e rest, oa.spec.env = some (e :: rest))
    (hupsert : env.upsertOk = true) (hclient : env.clientOk = true)
    (hlatest : env.latestVersion = none) :
    (handle env oa).outcome = .ok ∧
    (handle env oa).oneagent.status.version = oa.status.version ∧
    (handle env oa).deleted = [] := by
  obtain ⟨e, rest, he⟩ := henv
  obtain ⟨pt, hp⟩ := Option.isSome_iff_exists.mp hpaas
  obtain ⟨apt, ha⟩ := Option.isSome_iff_exists.mp hapi
  rw [handle]
  dsimp only
  by_cases ht : oa.spec.tokens = "" <;>
    [rw [if_pos ht]; rw [if_neg ht]] <;>
      rw [hp, ha] <;>
      dsimp only <;>
      rw [he] <;>
      dsimp only <;>
      by_cases hn : e.name = "ONEAGENT_INSTALLER_TOKEN" <;>
        simp [ensureCredentialReference, hn, hupsert, hclient, handleVersioned, hlatest]

/-- C6 witness: a concrete pass in which only the version query fails. -/
theorem C6_swallowed_version_failure_witness :
    (handle c6Env c6OA).outcome = .ok ∧
    (handle c6Env c6OA).oneagent.status.version = c6OA.status.version ∧
    (handle c6Env c6OA).deleted = [] :=
  C6_swallowed_version_failure c6Env c6OA rfl rfl ⟨⟨"SOME_SETTING", "x", none⟩, [], rfl⟩
    rfl rfl rfl

/-- C10: a version query that succeeds with the empty string leaves the
stored target version unchanged and contributes nothing to the
`updateStatus` flag gating the timestamp refresh and final status write
(handler.go:104, 133-141): for every incoming flag value the version step
is then the identity on the rest of the pass
(`handleVersioned env oa u = handlePods env oa u`), so neither the version
assignment nor the `updateStatus = true` mark of handler.go:103-104 fires.
Moreover the stored target version can only ever change to a successfully
resolved, non-empty desired version that differs from it. -/
theorem C10_empty_desired_version (env : HandleEnv) (oa : OneAgent) :
    (∀ u : Bool, env.latestVersion = some "" →
      handleVersioned env oa u = handlePods env oa u) ∧
    (env.latestVersion = some "" →
      (handle env oa).oneagent.status.version = oa.status.version) ∧
    ((handle env oa).oneagent.status.version ≠ oa.status.version →
      ∃ d, env.latestVersion = some d ∧ d ≠ "" ∧ d ≠ oa.status.version ∧
        (handle env oa).oneagent.status.version = d) := by
  refine ⟨?_, ?_, ?_⟩
  · intro u h
    rw [handleVersioned, h]
    dsimp only
    rw [if_neg]
    intro hc
    exact hc.1 rfl
  · intro h
    rcases handle_version_cases env oa with h1 | ⟨d, h1, h2, _, _⟩
    · exact h1
    · rw [h] at h1
      exact absurd (Option.some.inj h1).symm h2
  · intro hne
    rcases handle_version_cases env oa with h1 | ⟨d, h1, h2, h3, h4⟩
    · exact absurd h1 hne
    · exact ⟨d, h1, h2, fun hd => h3 hd.symm, h4⟩

/-- C10 witness: a concrete pass whose version query returns the empty
string; the version step passes the pending flag through untouched and the
stored version is untouched. -/
theorem C10_empty_desired_version_witness :
    handleVersioned c10Env c10OA false = handlePods c10Env c10OA false ∧
    (handle c10Env c10OA).oneagent.status.version = c10OA.status.version :=
  ⟨(C10_empty_desired_version c10Env c10OA).1 false rfl,
    (C10_empty_desired_version c10Env c10OA).2.1 rfl⟩

end Stub
